import Mathlib

/-!
Verification of the Text2SQL evaluation engine (`src/tsql_eval`).

The scalar values that flow out of an execution backend are modelled by
`Value`; python floats and decimals are modelled exactly as rationals, with
the 6-decimal rounding of `execution_accuracy.py` made explicit.
DataFrames are modelled as a column list plus a row list; python `sorted` /
pandas `sort_values(by=all columns)` are modelled by a canonical sort with
respect to a total order on values.  SQL execution and SQL parsing
(sqlglot) are kept abstract: a backend is a function from SQL text to a
result or an error, a parser is a function from SQL text to a component
set or an error, the semantic normalizer is a function from SQL text to
canonical text or an error.
-/

namespace TsqlEval

/-- Model of python `str.strip()` on one character: whitespace test. -/
def pyIsSpace (c : Char) : Bool := c.isWhitespace

/-- Model of python `str.strip()`: drop whitespace from both ends. -/
def pyStrip (s : String) : String :=
  ⟨((s.data.dropWhile pyIsSpace).reverse.dropWhile pyIsSpace).reverse⟩

/-- Model of python `str.lower()` on one character (ASCII letters). -/
def pyLowerChar (c : Char) : Char :=
  if 65 ≤ c.toNat ∧ c.toNat ≤ 90 then Char.ofNat (c.toNat + 32) else c

/-- Model of python `str.lower()`. -/
def pyLower (s : String) : String := ⟨s.data.map pyLowerChar⟩

/-- Scalar domain of an execution result: null, float NaN, bool, int,
float (exact rational model), fixed-point decimal, string. -/
inductive Value where
  | vnull : Value
  | vnan : Value
  | vbool : Bool → Value
  | vint : Int → Value
  | vfloat : ℚ → Value
  | vdec : ℚ → Value
  | vstr : String → Value
deriving DecidableEq, Repr

/-- Injective key used to give `Value` the total order that models python's
value comparison in `sorted` (constructor tag first, then payload). -/
def Value.toKey : Value → ℕ ×ₗ ℚ ×ₗ String
  | .vnull => toLex (0, toLex (0, ""))
  | .vnan => toLex (1, toLex (0, ""))
  | .vbool b => toLex (2, toLex (if b then 1 else 0, ""))
  | .vint n => toLex (3, toLex ((n : ℚ), ""))
  | .vfloat q => toLex (4, toLex (q, ""))
  | .vdec q => toLex (5, toLex (q, ""))
  | .vstr s => toLex (6, toLex (0, s))

theorem Value.toKey_injective : Function.Injective Value.toKey := by
  intro a b h
  cases a <;> cases b <;> simp [Value.toKey] at h <;>
    first
      | rfl
      | exact congrArg _ h
      | (rename_i x y; cases x <;> cases y <;> simp_all)

instance : LinearOrder Value := LinearOrder.lift' Value.toKey Value.toKey_injective

/-- An executed result: ordered column names plus rows of scalar cells
(a `pandas.DataFrame` as the comparison code sees it). -/
structure DF where
  cols : List String
  rows : List (List Value)
deriving DecidableEq, Repr

/-- Every row has exactly one cell per column (any frame a backend can
actually materialize satisfies this). -/
def DF.wf (d : DF) : Prop := ∀ r ∈ d.rows, r.length = d.cols.length

/-- Execution backend: runs SQL text, yielding a tabular result or the
engine's error text (`fetch_df` / `exec` / `execute` all draw on this). -/
structure Backend where
  fetch : String → Except String DF

namespace ExecutionAccuracyMetric

/-- Constructor flags of `ExecutionAccuracyMetric` (defaults: both true). -/
structure Config where
  ignore_order : Bool := true
  null_equal : Bool := true
deriving DecidableEq, Repr

/-- Round half to even at the integer scale: model of python `round`. -/
def roundHalfEven (x : ℚ) : ℤ :=
  let n := ⌊x⌋
  let r := x - (n : ℚ)
  if r < 1/2 then n
  else if 1/2 < r then n + 1
  else if n % 2 = 0 then n else n + 1

/-- `round(v, 6)`: round to 6 decimal digits. -/
def round6 (q : ℚ) : ℚ := (roundHalfEven (q * 1000000) : ℚ) / 1000000

/-- The per-cell normalization `_cell` of `_norm_df` (the same logic is
inlined in `_canon_rows`): None stays None, float NaN becomes None,
Decimal becomes float, floats are rounded to 6 decimal digits. -/
def _cell : Value → Value
  | .vnull => .vnull
  | .vnan => .vnull
  | .vdec q => .vfloat (round6 q)
  | .vfloat q => .vfloat (round6 q)
  | v => v

/-- `fillna("__NULL__")`: nulls are replaced by the string sentinel. -/
def _fillnull : Value → Value
  | .vnull => .vstr "__NULL__"
  | v => v

/-- `_norm_df`: lower-case and strip column names, normalize every cell,
replace nulls by the sentinel when `null_equal`, and sort the rows by all
columns when `ignore_order` holds and the frame has at least one column. -/
def _norm_df (cfg : Config) (df : DF) : DF :=
  let cols := df.cols.map (fun c => pyLower (pyStrip c))
  let rows1 := df.rows.map (List.map _cell)
  let rows2 := if cfg.null_equal then rows1.map (List.map _fillnull) else rows1
  let rows3 :=
    if cfg.ignore_order && !cols.isEmpty then List.insertionSort (· ≤ ·) rows2
    else rows2
  ⟨cols, rows3⟩

/-- `_canon_rows`: normalize every cell of every row, then sort the rows
(python `sorted`). -/
def _canon_rows (rows : List (List Value)) : List (List Value) :=
  List.insertionSort (· ≤ ·) (rows.map (List.map _cell))

/-- `_compare_df`: fetch both frames and compare their normalizations;
a fetch error is a failure of this path. -/
def _compare_df (cfg : Config) (b : Backend) (gold_sql pred_sql : String) :
    Except String Bool := do
  let g ← b.fetch gold_sql
  let p ← b.fetch pred_sql
  pure (decide (_norm_df cfg g = _norm_df cfg p))

/-- `_compare_rows`: fetch both row lists and compare their canonical
(sorted) forms, ignoring column names entirely. -/
def _compare_rows (cfg : Config) (b : Backend) (gold_sql pred_sql : String) :
    Except String Bool := do
  let g ← b.fetch gold_sql
  let p ← b.fetch pred_sql
  pure (decide (_canon_rows g.rows = _canon_rows p.rows))

/-- `_compare`: DataFrame comparison first; only when that path raises,
fall back to the row comparison. -/
def _compare (cfg : Config) (b : Backend) (gold_sql pred_sql : String) :
    Except String Bool :=
  match _compare_df cfg b gold_sql pred_sql with
  | .ok r => .ok r
  | .error _ => _compare_rows cfg b gold_sql pred_sql

/-- `measure`: empty predicted SQL scores 0; otherwise the candidates are
tried in order, a candidate whose comparison raises is skipped, and the
first candidate that compares equal yields 1.0. -/
def measure (cfg : Config) (b : Backend) (gold_sql : List String)
    (actual_output : String) : ℚ × String :=
  let pred := pyStrip actual_output
  if pred = "" then (0, "empty sql")
  else if gold_sql.any (fun c =>
      match _compare cfg b c pred with
      | .ok true => true
      | _ => false) then
    (1, "match(candidate)")
  else (0, "mismatch(all candidates)")

end ExecutionAccuracyMetric

namespace ExecutableSQLMetric

/-- `measure` of `executable_sql.py`: 0.0 with reason "empty sql" on
empty/whitespace SQL, else 1.0 when the backend runs the SQL and 0.0
with the engine's diagnostic when it raises.  Gold is never consulted. -/
def measure (b : Backend) (actual_output : String) : ℚ × String :=
  let sql := pyStrip actual_output
  if sql = "" then (0, "empty sql")
  else
    match b.fetch sql with
    | .ok _ => (1, "ok")
    | .error e => (0, "exec error: " ++ e)

end ExecutableSQLMetric

namespace SQLSemanticMatchMetric

/-- Does `needle` occur inside `hay` (python `in` on strings)? -/
def strContains (hay needle : String) : Bool := decide (needle.data <:+: hay.data)

/-- `_normalize`: empty/whitespace SQL maps to the empty string, other
SQL goes through the abstract sqlglot transpile `tr` (which can raise). -/
def _normalize (tr : String → Except String String) (sql : String) :
    Except String String :=
  let s := pyStrip sql
  if s = "" then .ok "" else tr s

/-- `measure` of `sql_semantic_match.py`: a normalization failure on the
predicted side scores 0.0; a candidate failure is skipped; exact canonical
equality gives 1.0, one-way substring containment of non-empty canonical
texts gives 0.5, the best value over candidates is kept. -/
def measure (tr : String → Except String String) (gold_sql : List String)
    (actual_output : String) : ℚ × String :=
  match _normalize tr actual_output with
  | .error e => (0, "parse/normalize error: " ++ e)
  | .ok predNorm =>
    let best := gold_sql.foldl (fun best c =>
      match _normalize tr c with
      | .error _ => best
      | .ok goldNorm =>
        if goldNorm = predNorm then max best 1
        else if predNorm ≠ "" ∧ goldNorm ≠ "" ∧
            (strContains goldNorm predNorm ∨ strContains predNorm goldNorm) then
          max best (1/2)
        else best) 0
    if best = 0 then (0, "different")
    else if best = 1/2 then (1/2, "partial(any candidate)")
    else (1, "equal(any candidate)")

end SQLSemanticMatchMetric

namespace ComponentMatchMetric

/-- The component kinds of `_collect_components`. -/
inductive Kind where
  | tables | columns | aggregates | joins | predicates | group_by | order_by
deriving DecidableEq, Repr

/-- A component set: for each kind, the set of canonical tokens extracted
from one query (`_collect_components` output). -/
structure ComponentSet where
  tables : Finset String
  columns : Finset String
  aggregates : Finset String
  joins : Finset String
  predicates : Finset String
  group_by : Finset String
  order_by : Finset String

/-- `comps[k]` lookup. -/
def ComponentSet.get (c : ComponentSet) : Kind → Finset String
  | .tables => c.tables
  | .columns => c.columns
  | .aggregates => c.aggregates
  | .joins => c.joins
  | .predicates => c.predicates
  | .group_by => c.group_by
  | .order_by => c.order_by

/-- `_jaccard`: 1.0 when both sets are empty, 0.0 when exactly one is,
else `|A ∩ B| / |A ∪ B|` (with the source's guard against a zero union). -/
def _jaccard (a b : Finset String) : ℚ :=
  if a = ∅ ∧ b = ∅ then 1
  else if a = ∅ ∨ b = ∅ then 0
  else if (a ∪ b).card = 0 then 0
  else ((a ∩ b).card : ℚ) / ((a ∪ b).card : ℚ)

/-- Default weights of `ComponentMatchMetric.__init__`. -/
def defaultWeights : List (Kind × ℚ) :=
  [(.tables, 2/10), (.columns, 2/10), (.aggregates, 15/100), (.joins, 2/10),
   (.predicates, 15/100), (.group_by, 5/100), (.order_by, 5/100)]

/-- The per-candidate weighted score: `acc / total_w` where
`acc = Σ jaccard·w` and `total_w = Σ w`, and 0.0 when `total_w` is zero. -/
def wjScore (weights : List (Kind × ℚ)) (p g : ComponentSet) : ℚ :=
  let total := (weights.map (fun kw => kw.2)).sum
  let acc := (weights.map (fun kw => _jaccard (p.get kw.1) (g.get kw.1) * kw.2)).sum
  if total = 0 then 0 else acc / total

/-- `measure` of `component_match.py`: parse the (stripped) prediction —
a failure there scores 0.0 with the parse error as reason — then keep the
best weighted-Jaccard score over the candidates, skipping candidates whose
parse raises.  `parse` abstracts `_safe_parse` + `_collect_components`. -/
def measure (parse : String → Except String ComponentSet)
    (weights : List (Kind × ℚ)) (gold_sql : List String)
    (actual_output : String) : ℚ × String :=
  let pred := pyStrip actual_output
  match parse pred with
  | .error e => (0, "parse/compare error: " ++ e)
  | .ok p =>
    let best := gold_sql.foldl (fun best c =>
      match parse c with
      | .error _ => best
      | .ok g =>
        let s := wjScore weights p g
        if s > best then s else best) 0
    (best, "weighted jaccard")

end ComponentMatchMetric

/-- One `MetricOutcome` of the report (`runner.run_eval` row). -/
structure MetricOutcome where
  name : String
  score : Option ℚ
  threshold : ℚ
  reason : String

/-- `ok = (score is not None and score >= thr)` of `run_eval`. -/
def metricPass (m : MetricOutcome) : Bool :=
  m.score.isSome && decide (m.score.getD 0 ≥ m.threshold)

/-- `pass_map.get(name, False)`: the last metric with that name wins
(python dict insertion semantics); absent names give `False`. -/
def passMapGet (ms : List MetricOutcome) (n : String) : Bool :=
  match ms.reverse.find? (fun m => m.name == n) with
  | some m => metricPass m
  | none => false

/-- One `CaseReport` row of `run_eval`'s output. -/
structure CaseReport where
  id : String
  question : String
  gold_sql : List String
  pred_sql : String
  metrics : List MetricOutcome
  passed_all : Bool

/-- The summary of one run. -/
structure RunSummary where
  passed_all : ℕ
  total : ℕ

/-- `run_eval`'s return value. -/
structure Report where
  summary : RunSummary
  results : List CaseReport

/-- All parameters a run closes over: comparison flags, the backend, the
abstract semantic normalizer, the abstract component parser, the component
weights, and the (constructor) thresholds of the two advisory metrics. -/
structure RunParams where
  cfg : ExecutionAccuracyMetric.Config
  backend : Backend
  tr : String → Except String String
  parse : String → Except String ComponentMatchMetric.ComponentSet
  weights : List (ComponentMatchMetric.Kind × ℚ)
  semThr : ℚ := 1
  cmThr : ℚ := 85/100

/-- The per-case body of `run_eval`'s loop: strip the prediction, measure
the four metrics, assemble the outcome list, and derive `passed_all` from
the two required metrics (`executable_sql` and `execution_accuracy`). -/
def runCase (P : RunParams) (qid question : String) (gold : List String)
    (predRaw : String) : CaseReport :=
  let pred := pyStrip predRaw
  let e := ExecutableSQLMetric.measure P.backend pred
  let a := ExecutionAccuracyMetric.measure P.cfg P.backend gold pred
  let s := SQLSemanticMatchMetric.measure P.tr gold pred
  let c := ComponentMatchMetric.measure P.parse P.weights gold pred
  let ms : List MetricOutcome := [
    ⟨"executable_sql", some e.1, 1, e.2⟩,
    ⟨"execution_accuracy", some a.1, 1, a.2⟩,
    ⟨"semantic_match_sql", some s.1, P.semThr, s.2⟩,
    ⟨"component_match_sql", some c.1, P.cmThr, c.2⟩]
  let must_ok := passMapGet ms "executable_sql" && passMapGet ms "execution_accuracy"
  ⟨qid, question, gold, pred, ms, must_ok⟩

/-- A raw testcase record as loaded from JSON: each field may be absent. -/
structure RawCase where
  id : Option String
  question : Option String
  gold_sql : Option (List String)

/-- `tc["key"]`: a missing key raises `KeyError` (modelled as an error). -/
def getKey {α : Type} (o : Option α) (k : String) : Except String α :=
  match o with
  | some v => .ok v
  | none => .error ("KeyError: " ++ k)

/-- `run_eval`'s loop over all testcases: for each record, the three keys
are read (a missing key raises, which aborts the whole loop), the
prediction is looked up by id (a missing id gives the empty prediction),
the case is scored, and finally the passed cases are counted. -/
def run_eval (P : RunParams) (tcs : List RawCase)
    (preds : String → Option String) : Except String Report := do
  let results ← tcs.mapM (fun tc => do
    let qid ← getKey tc.id "id"
    let question ← getKey tc.question "question"
    let gold ← getKey tc.gold_sql "gold_sql"
    let predRaw := (preds qid).getD ""
    pure (runCase P qid question gold predRaw))
  pure ⟨⟨results.countP (fun r => r.passed_all), results.length⟩, results⟩

/-- Backends used in the concrete instantiations: a two-result backend
serving a fixed gold frame and a fixed predicted frame. -/
def twoFetch (g p : DF) : Backend :=
  ⟨fun s => if s = "gold" then .ok g else if s = "pred" then .ok p else .error "unknown"⟩

/-- A concrete backend where gold "G" and prediction "P" return the same
single row under different column names. -/
def bColNames : Backend :=
  ⟨fun s =>
    if s = "G" then .ok ⟨["a"], [[.vint 1]]⟩
    else if s = "P" then .ok ⟨["b"], [[.vint 1]]⟩
    else .error "unknown"⟩

/-- A backend whose every query fails. -/
def bFail : Backend := ⟨fun _ => .error "no db"⟩

/-- A concrete backend where gold "G" and prediction "P" differ only by a
float beyond the 6th decimal digit and by the null-like sentinel used. -/
def bTol : Backend :=
  ⟨fun s =>
    if s = "G" then .ok ⟨["x", "y"], [[.vfloat 0, .vnull]]⟩
    else if s = "P" then .ok ⟨["x", "y"], [[.vfloat (1/10000000), .vnan]]⟩
    else .error "unknown"⟩

/-- A concrete component parser: "BAD" fails to parse, anything else
yields an empty component set. -/
def parseW : String → Except String ComponentMatchMetric.ComponentSet :=
  fun s => if s = "BAD" then .error "bad sql" else .ok ⟨∅, ∅, ∅, ∅, ∅, ∅, ∅⟩

/-- Run parameters with failing collaborators (used to exercise the
orchestrator's control flow on concrete inputs). -/
def trivialParams : RunParams where
  cfg := {}
  backend := bFail
  tr := fun _ => .error "no normalizer"
  parse := fun _ => .error "no parser"
  weights := []

end TsqlEval

namespace TsqlEval

open ExecutionAccuracyMetric

theorem sortRows_eq_of_perm {l l' : List (List Value)} (h : l.Perm l') :
    List.insertionSort (α := List Value) (· ≤ ·) l = List.insertionSort (· ≤ ·) l' :=
  List.eq_of_perm_of_sorted
    (((List.perm_insertionSort _ l).trans h).trans (List.perm_insertionSort _ l').symm)
    (List.sorted_insertionSort _ l) (List.sorted_insertionSort _ l')

theorem eq_of_perm_of_const {α : Type} {a : α} {l l' : List α} (h : l.Perm l')
    (ha : ∀ x ∈ l, x = a) : l = l' := by
  have ha' : ∀ x ∈ l', x = a := fun x hx => ha x (h.symm.subset hx)
  rw [List.eq_replicate_length.mpr ha, List.eq_replicate_length.mpr ha', h.length_eq]

/-- Row-permutation invariance of `_norm_df` for well-formed frames under
`ignore_order`. -/
theorem _norm_df_perm (cfg : Config) (hio : cfg.ignore_order = true) {g g' : DF}
    (hwf : g.wf) (hcols : g.cols = g'.cols) (hrows : g.rows.Perm g'.rows) :
    _norm_df cfg g = _norm_df cfg g' := by
  have hperm1 : (g.rows.map (List.map _cell)).Perm (g'.rows.map (List.map _cell)) :=
    hrows.map _
  have hperm2 :
      (if cfg.null_equal then (g.rows.map (List.map _cell)).map (List.map _fillnull)
        else g.rows.map (List.map _cell)).Perm
      (if cfg.null_equal then (g'.rows.map (List.map _cell)).map (List.map _fillnull)
        else g'.rows.map (List.map _cell)) := by
    cases hne : cfg.null_equal <;> simp only [hne, if_true, if_false, Bool.false_eq_true]
    · exact hperm1
    · exact hperm1.map _
  simp only [_norm_df, hcols, hio, Bool.true_and]
  congr 1
  by_cases hempty : (g'.cols.map (fun c => pyLower (pyStrip c))).isEmpty = true
  · -- no sorting happens, but a well-formed frame with no columns has only `[]` rows
    have hcnil : g'.cols = [] := by
      cases h' : g'.cols with
      | nil => rfl
      | cons a t => rw [h'] at hempty; simp [List.isEmpty] at hempty
    have hconst :
        ∀ r ∈ (if cfg.null_equal then
            (g.rows.map (List.map _cell)).map (List.map _fillnull)
          else g.rows.map (List.map _cell)), r = [] := by
      intro r hr
      have hr0 : ∃ r0 ∈ g.rows, r0.length = 0 ∧
          (r = (r0.map _cell).map _fillnull ∨ r = r0.map _cell) := by
        cases hne : cfg.null_equal <;> simp only [hne, if_true, if_false,
            Bool.false_eq_true, List.map_map, List.mem_map] at hr
        · obtain ⟨r0, h0, rfl⟩ := hr
          refine ⟨r0, h0, ?_, Or.inr rfl⟩
          have := hwf r0 h0
          rw [hcols, hcnil] at this
          simpa using this
        · obtain ⟨r0, h0, rfl⟩ := hr
          refine ⟨r0, h0, ?_, Or.inl (by simp [List.map_map])⟩
          have := hwf r0 h0
          rw [hcols, hcnil] at this
          simpa using this
      obtain ⟨r0, -, hlen, hcases⟩ := hr0
      rw [List.length_eq_zero.mp hlen] at hcases
      rcases hcases with rfl | rfl <;> rfl
    simp only [hempty, Bool.not_true, Bool.false_eq_true, if_false]
    exact eq_of_perm_of_const hperm2 hconst
  · have hempty' : (g'.cols.map (fun c => pyLower (pyStrip c))).isEmpty = false :=
      Bool.eq_false_iff.mpr hempty
    simp only [hempty', Bool.not_false, if_true]
    exact sortRows_eq_of_perm hperm2

/-- Row-permutation invariance of `_canon_rows`. -/
theorem _canon_rows_perm {l l' : List (List Value)} (h : l.Perm l') :
    _canon_rows l = _canon_rows l' :=
  sortRows_eq_of_perm (h.map _)

theorem pyStrip_empty : pyStrip "" = "" := rfl

/-- `_compare_df` on two successful fetches is the decided frame equality. -/
theorem _compare_df_ok (cfg : Config) (b : Backend) {gs ps : String} {g p : DF}
    (hg : b.fetch gs = .ok g) (hp : b.fetch ps = .ok p) :
    _compare_df cfg b gs ps = .ok (decide (_norm_df cfg g = _norm_df cfg p)) := by
  unfold _compare_df
  rw [hg, hp]
  rfl

/-- `_norm_df` only looks at the columns and at the `_cell`-image of the
rows. -/
theorem _norm_df_congr (cfg : Config) {g p : DF} (hcols : g.cols = p.cols)
    (hrows : g.rows.map (List.map _cell) = p.rows.map (List.map _cell)) :
    _norm_df cfg g = _norm_df cfg p := by
  simp only [_norm_df, hcols, hrows]

theorem roundHalfEven_eq_zero {x : ℚ} (h1 : 0 ≤ x) (h2 : x < 1/2) :
    roundHalfEven x = 0 := by
  have hf : ⌊x⌋ = 0 := Int.floor_eq_zero_iff.mpr ⟨h1, lt_trans h2 (by norm_num)⟩
  simp only [roundHalfEven, hf]
  rw [if_pos (by push_cast; linarith)]

theorem round6_eq_zero {q : ℚ} (h1 : 0 ≤ q * 1000000) (h2 : q * 1000000 < 1/2) :
    round6 q = 0 := by
  unfold round6
  rw [roundHalfEven_eq_zero h1 h2]
  norm_num

/-- Two cells that differ only past the 6th decimal digit of a float, or
only in which null-like sentinel they use, or not at all. -/
def cellTol (v w : Value) : Prop :=
  v = w ∨
    (∃ q q', v = .vfloat q ∧ w = .vfloat q' ∧ round6 q = round6 q') ∨
    ((v = .vnull ∨ v = .vnan) ∧ (w = .vnull ∨ w = .vnan))

theorem _cell_eq_of_cellTol {v w : Value} (h : cellTol v w) : _cell v = _cell w := by
  rcases h with rfl | ⟨q, q', rfl, rfl, hq⟩ | ⟨hv, hw⟩
  · rfl
  · simpa [_cell] using hq
  · rcases hv with rfl | rfl <;> rcases hw with rfl | rfl <;> rfl

theorem map_eq_of_forall₂ {α β : Type} {f : α → β} {l l' : List α}
    (h : List.Forall₂ (fun a b => f a = f b) l l') : l.map f = l'.map f := by
  induction h with
  | nil => rfl
  | cons h _ ih => simpa using ⟨h, ih⟩

theorem rows_map_cell_eq {rows rows' : List (List Value)}
    (h : List.Forall₂ (List.Forall₂ cellTol) rows rows') :
    rows.map (List.map _cell) = rows'.map (List.map _cell) := by
  refine map_eq_of_forall₂ (h.imp ?_)
  intro a b hab
  exact map_eq_of_forall₂ (hab.imp fun ha hb hab' => _cell_eq_of_cellTol hab')

namespace ComponentMatchMetric

theorem _jaccard_nonneg (a b : Finset String) : 0 ≤ _jaccard a b := by
  unfold _jaccard
  split_ifs with h1 h2 h3
  · norm_num
  · norm_num
  · norm_num
  · positivity

theorem _jaccard_le_one (a b : Finset String) : _jaccard a b ≤ 1 := by
  unfold _jaccard
  split_ifs with h1 h2 h3
  · norm_num
  · norm_num
  · norm_num
  · rw [div_le_one (by positivity)]
    exact_mod_cast Finset.card_le_card Finset.inter_subset_union

theorem wjScore_nonneg {weights : List (Kind × ℚ)} (hw : ∀ kw ∈ weights, 0 ≤ kw.2)
    (p g : ComponentSet) : 0 ≤ wjScore weights p g := by
  simp only [wjScore]
  split_ifs with h
  · exact le_refl 0
  · apply div_nonneg
    · apply List.sum_nonneg
      intro x hx
      obtain ⟨kw, hkw, rfl⟩ := List.mem_map.mp hx
      exact mul_nonneg (_jaccard_nonneg _ _) (hw kw hkw)
    · apply List.sum_nonneg
      intro x hx
      obtain ⟨kw, hkw, rfl⟩ := List.mem_map.mp hx
      exact hw kw hkw

theorem wjScore_le_one {weights : List (Kind × ℚ)} (hw : ∀ kw ∈ weights, 0 ≤ kw.2)
    (p g : ComponentSet) : wjScore weights p g ≤ 1 := by
  simp only [wjScore]
  split_ifs with h
  · norm_num
  · have htot_nonneg : 0 ≤ (weights.map (fun kw => kw.2)).sum := by
      apply List.sum_nonneg
      intro x hx
      obtain ⟨kw, hkw, rfl⟩ := List.mem_map.mp hx
      exact hw kw hkw
    rw [div_le_one (lt_of_le_of_ne htot_nonneg (Ne.symm h))]
    apply List.sum_le_sum
    intro kw hkw
    calc _jaccard (p.get kw.1) (g.get kw.1) * kw.2 ≤ 1 * kw.2 :=
          mul_le_mul_of_nonneg_right (_jaccard_le_one _ _) (hw kw hkw)
      _ = kw.2 := one_mul _

/-- The fold step `if s > best then s else best` is just `max`. -/
theorem if_gt_eq_max (b s : ℚ) : (if s > b then s else b) = max b s := by
  rcases le_or_lt s b with h | h
  · rw [if_neg (not_lt.mpr h), max_eq_left h]
  · rw [if_pos h, max_eq_right h.le]

/-- The candidate fold of `measure` computes a fold of `max` over the
scores of the individually parseable candidates. -/
theorem measure_fold_eq (parse : String → Except String ComponentSet)
    (weights : List (Kind × ℚ)) (p : ComponentSet) :
    ∀ (l : List String) (b0 : ℚ),
      l.foldl (fun best c =>
          match parse c with
          | .error _ => best
          | .ok g =>
            let s := wjScore weights p g
            if s > best then s else best) b0 =
        ((l.filterMap (fun c => (parse c).toOption)).map (wjScore weights p)).foldl max b0 := by
  intro l
  have hstep : (fun (best : ℚ) (c : String) =>
      match parse c with
      | .error _ => best
      | .ok g =>
        let s := wjScore weights p g
        if s > best then s else best) =
      (fun (best : ℚ) (c : String) =>
      match parse c with
      | .error _ => best
      | .ok g => max best (wjScore weights p g)) := by
    funext best c
    cases parse c <;> simp [if_gt_eq_max]
  rw [hstep]
  induction l with
  | nil => intro b0; rfl
  | cons c t ih =>
    intro b0
    cases hc : parse c with
    | error e => simp [List.filterMap_cons, hc, Except.toOption, ih]
    | ok g => simp [List.filterMap_cons, hc, Except.toOption, ih]

theorem foldl_max_le {l : List ℚ} {b0 c : ℚ} (hb : b0 ≤ c) (hl : ∀ x ∈ l, x ≤ c) :
    l.foldl max b0 ≤ c := by
  induction l generalizing b0 with
  | nil => exact hb
  | cons x t ih =>
    exact ih (max_le hb (hl x (List.mem_cons_self x t)))
      fun y hy => hl y (List.mem_cons_of_mem _ hy)

theorem le_foldl_max {l : List ℚ} (b0 : ℚ) : b0 ≤ l.foldl max b0 := by
  induction l generalizing b0 with
  | nil => exact le_refl b0
  | cons x t ih => exact le_trans (le_max_left b0 x) (ih _)

theorem mem_le_foldl_max {l : List ℚ} {x : ℚ} (hx : x ∈ l) (b0 : ℚ) :
    x ≤ l.foldl max b0 := by
  induction l generalizing b0 with
  | nil => cases hx
  | cons y t ih =>
    rcases List.mem_cons.mp hx with rfl | hx'
    · exact le_trans (le_max_right b0 x) (le_foldl_max _)
    · exact ih hx' _

theorem defaultWeights_nonneg : ∀ kw ∈ defaultWeights, (0:ℚ) ≤ kw.2 := by
  intro kw hkw
  simp only [defaultWeights, List.mem_cons, List.not_mem_nil, or_false] at hkw
  rcases hkw with rfl | rfl | rfl | rfl | rfl | rfl | rfl <;> norm_num

theorem foldl_max_mem' {l : List ℚ} (b0 : ℚ) :
    l.foldl max b0 = b0 ∨ l.foldl max b0 ∈ l := by
  induction l generalizing b0 with
  | nil => exact Or.inl rfl
  | cons x t ih =>
    rw [List.foldl_cons]
    rcases ih (max b0 x) with h | h
    · rw [h]
      rcases le_or_lt x b0 with hle | hlt
      · exact Or.inl (max_eq_left hle)
      · exact Or.inr (by rw [max_eq_right hlt.le]; exact List.mem_cons_self x t)
    · exact Or.inr (List.mem_cons_of_mem _ h)

end ComponentMatchMetric

end TsqlEval

namespace TsqlEval

open ComponentMatchMetric in
/-- C1, counterexample to the claim as stated: a gold and a predicted
result with identical rows but different column names.  The row-tuple
strategy matches, yet `_compare` completes the DataFrame path with a
`false` verdict and never falls back, so the metric scores 0 — the pair
is not judged accurate even though it matches under the second strategy. -/
theorem C1_counterexample :
    ExecutionAccuracyMetric._compare_rows {} bColNames "G" "P" = .ok true ∧
    ExecutionAccuracyMetric._compare {} bColNames "G" "P" = .ok false ∧
    ExecutionAccuracyMetric.measure {} bColNames ["G"] "P" =
      (0, "mismatch(all candidates)") :=
  ⟨rfl, rfl, rfl⟩

/-- C1 (amended): `_compare` runs the column-aware DataFrame comparison
first; a verdict from that path (equal or not equal) is final, and only
when that path raises does `_compare` fall back to the raw row-tuple
comparison that ignores column names. -/
theorem C1_compare_two_tier (cfg : ExecutionAccuracyMetric.Config) (b : Backend)
    (gold pred : String) :
    (∀ r : Bool, ExecutionAccuracyMetric._compare_df cfg b gold pred = .ok r →
      ExecutionAccuracyMetric._compare cfg b gold pred = .ok r) ∧
    (∀ e : String, ExecutionAccuracyMetric._compare_df cfg b gold pred = .error e →
      ExecutionAccuracyMetric._compare cfg b gold pred =
        ExecutionAccuracyMetric._compare_rows cfg b gold pred) := by
  constructor
  · intro r h
    unfold ExecutionAccuracyMetric._compare
    rw [h]
  · intro e h
    unfold ExecutionAccuracyMetric._compare
    rw [h]

/-- C1 witness: the two-tier rule applied at a failing backend (fallback
taken) and at the column-renaming backend (DataFrame verdict final). -/
theorem C1_compare_two_tier_witness :
    ExecutionAccuracyMetric._compare {} bFail "G" "P" =
      ExecutionAccuracyMetric._compare_rows {} bFail "G" "P" ∧
    ExecutionAccuracyMetric._compare {} bColNames "G" "P" = .ok false :=
  ⟨(C1_compare_two_tier {} bFail "G" "P").2 "no db" rfl,
   (C1_compare_two_tier {} bColNames "G" "P").1 false rfl⟩

/-- C2: `passed_all` is exactly "Executability passes and Execution
Accuracy passes" (score present and at least the fixed 1.0 threshold),
and it is unchanged under any choice of the Semantic Match / Component
Match thresholds. -/
theorem C2_passed_all_required_only (P : RunParams) (qid question : String)
    (gold : List String) (predRaw : String) :
    ((runCase P qid question gold predRaw).passed_all =
      (decide ((ExecutableSQLMetric.measure P.backend (pyStrip predRaw)).1 ≥ 1) &&
        decide ((ExecutionAccuracyMetric.measure P.cfg P.backend gold
          (pyStrip predRaw)).1 ≥ 1))) ∧
    (∀ semThr' cmThr' : ℚ,
      (runCase { P with semThr := semThr', cmThr := cmThr' }
          qid question gold predRaw).passed_all =
        (runCase P qid question gold predRaw).passed_all) :=
  ⟨rfl, fun _ _ => rfl⟩

/-- C3, behavior of the code at the failing input: a malformed first
testcase record with no "id" key aborts `run_eval` with a KeyError, so
the well-formed second case is never scored and no report is returned. -/
theorem C3_missing_id_aborts :
    run_eval trivialParams
        [⟨none, some "q1", some ["SELECT 1"]⟩, ⟨some "2", some "q2", some ["SELECT 2"]⟩]
        (fun _ => none) = .error "KeyError: id" :=
  rfl

/-- C6: the Jaccard index of the Component Similarity Scorer lies in
[0,1], is symmetric, equals 1 on identical sets and on two empty sets,
and equals 0 when exactly the gold side is empty. -/
theorem C6_jaccard_props :
    (∀ a b : Finset String, 0 ≤ ComponentMatchMetric._jaccard a b ∧
      ComponentMatchMetric._jaccard a b ≤ 1) ∧
    (∀ a b : Finset String,
      ComponentMatchMetric._jaccard a b = ComponentMatchMetric._jaccard b a) ∧
    (∀ a : Finset String, ComponentMatchMetric._jaccard a a = 1) ∧
    ComponentMatchMetric._jaccard ∅ ∅ = 1 ∧
    (∀ a : Finset String, a ≠ ∅ → ComponentMatchMetric._jaccard a ∅ = 0) := by
  refine ⟨fun a b => ⟨ComponentMatchMetric._jaccard_nonneg a b,
    ComponentMatchMetric._jaccard_le_one a b⟩, ?_, ?_, ?_, ?_⟩
  · intro a b
    by_cases ha : a = ∅ <;> by_cases hb : b = ∅ <;>
      simp [ComponentMatchMetric._jaccard, ha, hb, Finset.inter_comm, Finset.union_comm]
  · intro a
    by_cases ha : a = ∅
    · simp [ComponentMatchMetric._jaccard, ha]
    · have hcard : (a.card : ℚ) ≠ 0 := by
        exact_mod_cast (Finset.nonempty_iff_ne_empty.mpr ha).card_pos.ne'
      simp [ComponentMatchMetric._jaccard, ha, Finset.inter_self, Finset.union_self,
        Finset.card_eq_zero, div_self hcard]
  · simp [ComponentMatchMetric._jaccard]
  · intro a ha
    simp [ComponentMatchMetric._jaccard, ha]

/-- C6 witness: the one-empty-set clause at the concrete set `{"t"}`. -/
theorem C6_jaccard_props_witness :
    ComponentMatchMetric._jaccard ({"t"} : Finset String) ∅ = 0 :=
  C6_jaccard_props.2.2.2.2 {"t"} (by decide)

/-- C10: the row-tuple fallback result never depends on the `null_equal`
flag (both NaN and null canonicalize to null there, unconditionally),
while the flag does change the DataFrame normalization path. -/
theorem C10_fallback_ignores_null_equal :
    (∀ (io b₁ b₂ : Bool) (b : Backend) (gold pred : String),
      ExecutionAccuracyMetric._compare_rows ⟨io, b₁⟩ b gold pred =
        ExecutionAccuracyMetric._compare_rows ⟨io, b₂⟩ b gold pred) ∧
    ExecutionAccuracyMetric._cell .vnan = .vnull ∧
    ExecutionAccuracyMetric._cell .vnull = .vnull ∧
    (∃ cfg₁ cfg₂ : ExecutionAccuracyMetric.Config,
      cfg₁.ignore_order = cfg₂.ignore_order ∧ cfg₁.null_equal ≠ cfg₂.null_equal ∧
      ∃ d : DF,
        ExecutionAccuracyMetric._norm_df cfg₁ d ≠ ExecutionAccuracyMetric._norm_df cfg₂ d) := by
  refine ⟨fun _ _ _ _ _ _ => rfl, rfl, rfl,
    ⟨true, true⟩, ⟨true, false⟩, rfl, by decide, ⟨["a"], [[.vnull]]⟩, by decide⟩

/-- C4: Component Match keeps the maximum weighted-Jaccard score over the
individually parseable gold candidates — never an average — a candidate
whose parse fails being merely excluded; and a parse failure on the
predicted side scores 0.0 with a reason naming the failure. -/
theorem C4_component_best_of
    (parse : String → Except String ComponentMatchMetric.ComponentSet)
    (weights : List (ComponentMatchMetric.Kind × ℚ)) (gold : List String)
    (predRaw : String) (hw : ∀ kw ∈ weights, 0 ≤ kw.2) :
    (∀ e, parse (pyStrip predRaw) = .error e →
      ComponentMatchMetric.measure parse weights gold predRaw =
        (0, "parse/compare error: " ++ e)) ∧
    (∀ p, parse (pyStrip predRaw) = .ok p →
      (ComponentMatchMetric.measure parse weights gold predRaw).1 =
        ((gold.filterMap (fun c => (parse c).toOption)).map
          (ComponentMatchMetric.wjScore weights p)).foldl max 0 ∧
      (((gold.filterMap (fun c => (parse c).toOption)).map
          (ComponentMatchMetric.wjScore weights p)) ≠ [] →
        (ComponentMatchMetric.measure parse weights gold predRaw).1 ∈
          ((gold.filterMap (fun c => (parse c).toOption)).map
            (ComponentMatchMetric.wjScore weights p)) ∧
        ∀ x ∈ ((gold.filterMap (fun c => (parse c).toOption)).map
            (ComponentMatchMetric.wjScore weights p)),
          x ≤ (ComponentMatchMetric.measure parse weights gold predRaw).1)) := by
  constructor
  · intro e he
    simp only [ComponentMatchMetric.measure, he]
  · intro p hp
    have hmeas : (ComponentMatchMetric.measure parse weights gold predRaw).1 =
        ((gold.filterMap (fun c => (parse c).toOption)).map
          (ComponentMatchMetric.wjScore weights p)).foldl max 0 := by
      simp only [ComponentMatchMetric.measure, hp]
      exact ComponentMatchMetric.measure_fold_eq parse weights p gold 0
    refine ⟨hmeas, fun hne => ?_⟩
    rw [hmeas]
    refine ⟨?_, fun x hx => ComponentMatchMetric.mem_le_foldl_max hx 0⟩
    rcases ComponentMatchMetric.foldl_max_mem'
        (l := (gold.filterMap (fun c => (parse c).toOption)).map
          (ComponentMatchMetric.wjScore weights p)) 0 with h0 | hIn
    · obtain ⟨y, hy⟩ := List.exists_mem_of_ne_nil _ hne
      have hy0 : 0 ≤ y := by
        obtain ⟨g0, hg0, rfl⟩ := List.mem_map.mp hy
        exact ComponentMatchMetric.wjScore_nonneg hw p g0
      have hyfold : y = ((gold.filterMap (fun c => (parse c).toOption)).map
          (ComponentMatchMetric.wjScore weights p)).foldl max 0 :=
        le_antisymm (ComponentMatchMetric.mem_le_foldl_max hy 0) (by rw [h0]; exact hy0)
      exact hyfold ▸ hy
    · exact hIn

/-- C4 witness: the two clauses at a concrete parser — a failing predicted
parse, and a parseable prediction with one parseable and one failing gold
candidate. -/
theorem C4_component_best_of_witness :
    (∀ e, parseW (pyStrip "BAD") = .error e →
      ComponentMatchMetric.measure parseW ComponentMatchMetric.defaultWeights
        ["SELECT 1", "BAD"] "BAD" = (0, "parse/compare error: " ++ e)) ∧
    (∀ p, parseW (pyStrip "BAD") = .ok p →
      (ComponentMatchMetric.measure parseW ComponentMatchMetric.defaultWeights
        ["SELECT 1", "BAD"] "BAD").1 =
        ((["SELECT 1", "BAD"].filterMap (fun c => (parseW c).toOption)).map
          (ComponentMatchMetric.wjScore ComponentMatchMetric.defaultWeights p)).foldl max 0 ∧
      ((((["SELECT 1", "BAD"].filterMap (fun c => (parseW c).toOption)).map
          (ComponentMatchMetric.wjScore ComponentMatchMetric.defaultWeights p))) ≠ [] →
        (ComponentMatchMetric.measure parseW ComponentMatchMetric.defaultWeights
          ["SELECT 1", "BAD"] "BAD").1 ∈
          ((["SELECT 1", "BAD"].filterMap (fun c => (parseW c).toOption)).map
            (ComponentMatchMetric.wjScore ComponentMatchMetric.defaultWeights p)) ∧
        ∀ x ∈ ((["SELECT 1", "BAD"].filterMap (fun c => (parseW c).toOption)).map
            (ComponentMatchMetric.wjScore ComponentMatchMetric.defaultWeights p)),
          x ≤ (ComponentMatchMetric.measure parseW ComponentMatchMetric.defaultWeights
            ["SELECT 1", "BAD"] "BAD").1)) :=
  C4_component_best_of parseW ComponentMatchMetric.defaultWeights
    ["SELECT 1", "BAD"] "BAD" ComponentMatchMetric.defaultWeights_nonneg

/-- C5: under the default configuration, a predicted result that differs
from a gold candidate's result only by floats that agree after rounding
to 6 decimal digits, or by which null-like sentinel is used (null vs
NaN), scores 1.0 in Execution Accuracy. -/
theorem C5_null_precision_tolerance (b : Backend) (cands : List String)
    (goldSql predRaw : String) (g p : DF)
    (hc : goldSql ∈ cands) (hg : b.fetch goldSql = .ok g)
    (hp : b.fetch (pyStrip predRaw) = .ok p)
    (hcols : g.cols = p.cols)
    (hrows : List.Forall₂ (List.Forall₂ cellTol) g.rows p.rows)
    (hne : pyStrip predRaw ≠ "") :
    ExecutionAccuracyMetric.measure {} b cands predRaw = (1, "match(candidate)") := by
  have hnorm : ExecutionAccuracyMetric._norm_df {} g =
      ExecutionAccuracyMetric._norm_df {} p :=
    _norm_df_congr _ hcols (rows_map_cell_eq hrows)
  have hcmp : ExecutionAccuracyMetric._compare {} b goldSql (pyStrip predRaw) = .ok true := by
    have hdf : ExecutionAccuracyMetric._compare_df {} b goldSql (pyStrip predRaw) =
        .ok true := by
      rw [_compare_df_ok {} b hg hp, hnorm]
      exact congrArg Except.ok (decide_eq_true rfl)
    unfold ExecutionAccuracyMetric._compare
    rw [hdf]
  simp only [ExecutionAccuracyMetric.measure, if_neg hne]
  rw [if_pos]
  rw [List.any_eq_true]
  refine ⟨goldSql, hc, ?_⟩
  rw [hcmp]

/-- C5 witness: concrete frames whose single row differs by the float
`1e-7` (invisible at 6 decimal digits) and by null-vs-NaN. -/
theorem C5_null_precision_tolerance_witness :
    ExecutionAccuracyMetric.measure {} bTol ["G"] "P" = (1, "match(candidate)") := by
  have hround : ExecutionAccuracyMetric.round6 0 =
      ExecutionAccuracyMetric.round6 (1/10000000) := by
    rw [round6_eq_zero (q := 0) (by norm_num) (by norm_num),
      round6_eq_zero (q := 1/10000000) (by norm_num) (by norm_num)]
  exact C5_null_precision_tolerance bTol ["G"] "G" "P"
    ⟨["x", "y"], [[.vfloat 0, .vnull]]⟩ ⟨["x", "y"], [[.vfloat (1/10000000), .vnan]]⟩
    (by decide) rfl rfl rfl
    (List.Forall₂.cons
      (List.Forall₂.cons (Or.inr (Or.inl ⟨0, 1/10000000, rfl, rfl, hround⟩))
        (List.Forall₂.cons (Or.inr (Or.inr ⟨Or.inl rfl, Or.inr rfl⟩)) List.Forall₂.nil))
      List.Forall₂.nil)
    (by decide)

/-- C7: an empty or whitespace-only prediction scores 0.0 with reason
"empty sql" in Executability, 0.0 in Execution Accuracy, and fails the
case; a non-empty prediction's Executability is decided solely by whether
the backend run succeeds, with no comparison against gold. -/
theorem C7_empty_and_executability (P : RunParams) (b : Backend) (gold : List String)
    (qid question predRaw : String) :
    (pyStrip predRaw = "" →
      ExecutableSQLMetric.measure b predRaw = (0, "empty sql") ∧
      ExecutionAccuracyMetric.measure P.cfg b gold predRaw = (0, "empty sql") ∧
      (runCase P qid question gold predRaw).passed_all = false) ∧
    (pyStrip predRaw ≠ "" →
      ExecutableSQLMetric.measure b predRaw =
        match b.fetch (pyStrip predRaw) with
        | .ok _ => (1, "ok")
        | .error e => (0, "exec error: " ++ e)) := by
  constructor
  · intro h
    have hexec : ∀ b' : Backend,
        ExecutableSQLMetric.measure b' (pyStrip predRaw) = (0, "empty sql") := by
      intro b'
      simp [ExecutableSQLMetric.measure, h, pyStrip_empty]
    refine ⟨by simp [ExecutableSQLMetric.measure, h],
      by simp [ExecutionAccuracyMetric.measure, h], ?_⟩
    have hpass : (runCase P qid question gold predRaw).passed_all =
        (decide ((ExecutableSQLMetric.measure P.backend (pyStrip predRaw)).1 ≥ 1) &&
          decide ((ExecutionAccuracyMetric.measure P.cfg P.backend gold
            (pyStrip predRaw)).1 ≥ 1)) := rfl
    rw [hpass, hexec P.backend]
    norm_num
  · intro h
    simp only [ExecutableSQLMetric.measure, if_neg h]

/-- C7 witness: both clauses at a whitespace-only and at a non-empty
prediction against the failing backend. -/
theorem C7_empty_and_executability_witness :
    (ExecutableSQLMetric.measure bFail " " = (0, "empty sql") ∧
      ExecutionAccuracyMetric.measure trivialParams.cfg bFail [] " " = (0, "empty sql") ∧
      (runCase trivialParams "1" "q" [] " ").passed_all = false) ∧
    ExecutableSQLMetric.measure bFail "SELECT 1" =
      match bFail.fetch (pyStrip "SELECT 1") with
      | .ok _ => (1, "ok")
      | .error e => (0, "exec error: " ++ e) :=
  ⟨(C7_empty_and_executability trivialParams bFail [] "1" "q" " ").1 (by decide),
   (C7_empty_and_executability trivialParams bFail [] "1" "q" "SELECT 1").2 (by decide)⟩

/-- C8: with `ignore_order` set, the Execution Accuracy score is invariant
under any permutation of the rows of either executed result. -/
theorem C8_order_insensitive (cfg : ExecutionAccuracyMetric.Config)
    (hio : cfg.ignore_order = true) (g g' p p' : DF)
    (hgwf : g.wf) (hpwf : p.wf)
    (hgc : g.cols = g'.cols) (hgr : g.rows.Perm g'.rows)
    (hpc : p.cols = p'.cols) (hpr : p.rows.Perm p'.rows) :
    ExecutionAccuracyMetric.measure cfg (twoFetch g p) ["gold"] "pred" =
      ExecutionAccuracyMetric.measure cfg (twoFetch g' p) ["gold"] "pred" ∧
    ExecutionAccuracyMetric.measure cfg (twoFetch g p) ["gold"] "pred" =
      ExecutionAccuracyMetric.measure cfg (twoFetch g p') ["gold"] "pred" := by
  have hg_eq : ExecutionAccuracyMetric._norm_df cfg g =
      ExecutionAccuracyMetric._norm_df cfg g' :=
    _norm_df_perm cfg hio hgwf hgc hgr
  have hp_eq : ExecutionAccuracyMetric._norm_df cfg p =
      ExecutionAccuracyMetric._norm_df cfg p' :=
    _norm_df_perm cfg hio hpwf hpc hpr
  have hcanon_g : ExecutionAccuracyMetric._canon_rows g.rows =
      ExecutionAccuracyMetric._canon_rows g'.rows := _canon_rows_perm hgr
  have hcanon_p : ExecutionAccuracyMetric._canon_rows p.rows =
      ExecutionAccuracyMetric._canon_rows p'.rows := _canon_rows_perm hpr
  have key : ∀ gg pp : DF,
      ExecutionAccuracyMetric.measure cfg (twoFetch gg pp) ["gold"] "pred" =
        if (decide (ExecutionAccuracyMetric._norm_df cfg gg =
            ExecutionAccuracyMetric._norm_df cfg pp)) = true then
          ((1:ℚ), "match(candidate)")
        else (0, "mismatch(all candidates)") := by
    intro gg pp
    have hfg : (twoFetch gg pp).fetch "gold" = .ok gg := by simp [twoFetch]
    have hfp : (twoFetch gg pp).fetch (pyStrip "pred") = .ok pp := by
      simp [twoFetch, show pyStrip "pred" = "pred" from rfl]
    have hdf : ExecutionAccuracyMetric._compare_df cfg (twoFetch gg pp) "gold"
        (pyStrip "pred") = .ok (decide (ExecutionAccuracyMetric._norm_df cfg gg =
          ExecutionAccuracyMetric._norm_df cfg pp)) :=
      _compare_df_ok cfg (twoFetch gg pp) hfg hfp
    have hcmp : ExecutionAccuracyMetric._compare cfg (twoFetch gg pp) "gold"
        (pyStrip "pred") = .ok (decide (ExecutionAccuracyMetric._norm_df cfg gg =
          ExecutionAccuracyMetric._norm_df cfg pp)) := by
      unfold ExecutionAccuracyMetric._compare
      rw [hdf]
    simp only [ExecutionAccuracyMetric.measure,
      if_neg (show ¬pyStrip "pred" = "" by decide), List.any_cons, List.any_nil,
      Bool.or_false, hcmp]
    cases hdec : decide (ExecutionAccuracyMetric._norm_df cfg gg =
        ExecutionAccuracyMetric._norm_df cfg pp) <;> simp [hdec]
  rw [key g p, key g' p, key g p', hg_eq, hp_eq]
  exact ⟨rfl, rfl⟩

/-- C8 witness: a concrete two-row gold frame and its row-swapped
permutation, and the same on the predicted side. -/
theorem C8_order_insensitive_witness :
    ExecutionAccuracyMetric.measure {}
        (twoFetch ⟨["a"], [[.vint 1], [.vint 2]]⟩ ⟨["a"], [[.vint 2], [.vint 1]]⟩)
        ["gold"] "pred" =
      ExecutionAccuracyMetric.measure {}
        (twoFetch ⟨["a"], [[.vint 2], [.vint 1]]⟩ ⟨["a"], [[.vint 2], [.vint 1]]⟩)
        ["gold"] "pred" ∧
    ExecutionAccuracyMetric.measure {}
        (twoFetch ⟨["a"], [[.vint 1], [.vint 2]]⟩ ⟨["a"], [[.vint 2], [.vint 1]]⟩)
        ["gold"] "pred" =
      ExecutionAccuracyMetric.measure {}
        (twoFetch ⟨["a"], [[.vint 1], [.vint 2]]⟩ ⟨["a"], [[.vint 1], [.vint 2]]⟩)
        ["gold"] "pred" :=
  C8_order_insensitive {} rfl
    ⟨["a"], [[.vint 1], [.vint 2]]⟩ ⟨["a"], [[.vint 2], [.vint 1]]⟩
    ⟨["a"], [[.vint 2], [.vint 1]]⟩ ⟨["a"], [[.vint 1], [.vint 2]]⟩
    (by simp [DF.wf]) (by simp [DF.wf]) rfl (List.Perm.swap _ _ _) rfl
    (List.Perm.swap _ _ _)

/-- C9: whenever a metric returns a score, it lies in [0,1] — for all
four metrics and all inputs (component weights taken non-negative). -/
theorem C9_scores_unit_interval (cfg : ExecutionAccuracyMetric.Config) (b : Backend)
    (tr : String → Except String String)
    (parse : String → Except String ComponentMatchMetric.ComponentSet)
    (weights : List (ComponentMatchMetric.Kind × ℚ)) (gold : List String)
    (pred : String) (hw : ∀ kw ∈ weights, 0 ≤ kw.2) :
    (0 ≤ (ExecutableSQLMetric.measure b pred).1 ∧
      (ExecutableSQLMetric.measure b pred).1 ≤ 1) ∧
    (0 ≤ (ExecutionAccuracyMetric.measure cfg b gold pred).1 ∧
      (ExecutionAccuracyMetric.measure cfg b gold pred).1 ≤ 1) ∧
    (0 ≤ (SQLSemanticMatchMetric.measure tr gold pred).1 ∧
      (SQLSemanticMatchMetric.measure tr gold pred).1 ≤ 1) ∧
    (0 ≤ (ComponentMatchMetric.measure parse weights gold pred).1 ∧
      (ComponentMatchMetric.measure parse weights gold pred).1 ≤ 1) := by
  refine ⟨?_, ?_, ?_, ?_⟩
  · simp only [ExecutableSQLMetric.measure]
    split_ifs with h
    · norm_num
    · cases b.fetch (pyStrip pred) <;> norm_num
  · simp only [ExecutionAccuracyMetric.measure]
    split_ifs <;> norm_num
  · simp only [SQLSemanticMatchMetric.measure]
    cases SQLSemanticMatchMetric._normalize tr pred with
    | error e => norm_num
    | ok predNorm =>
      simp only []
      split_ifs <;> norm_num
  · cases hp : parse (pyStrip pred) with
    | error e =>
      simp only [ComponentMatchMetric.measure, hp]
      norm_num
    | ok p =>
      have hmeas : (ComponentMatchMetric.measure parse weights gold pred).1 =
          ((gold.filterMap (fun c => (parse c).toOption)).map
            (ComponentMatchMetric.wjScore weights p)).foldl max 0 := by
        simp only [ComponentMatchMetric.measure, hp]
        exact ComponentMatchMetric.measure_fold_eq parse weights p gold 0
      rw [hmeas]
      constructor
      · exact ComponentMatchMetric.le_foldl_max 0
      · apply ComponentMatchMetric.foldl_max_le (by norm_num)
        intro x hx
        obtain ⟨g0, hg0, rfl⟩ := List.mem_map.mp hx
        exact ComponentMatchMetric.wjScore_le_one hw p g0

/-- C9 witness: the bounds at concrete inputs with the default component
weights. -/
theorem C9_scores_unit_interval_witness :
    (0 ≤ (ExecutableSQLMetric.measure bFail "SELECT 1").1 ∧
      (ExecutableSQLMetric.measure bFail "SELECT 1").1 ≤ 1) ∧
    (0 ≤ (ExecutionAccuracyMetric.measure {} bFail ["SELECT 1"] "SELECT 1").1 ∧
      (ExecutionAccuracyMetric.measure {} bFail ["SELECT 1"] "SELECT 1").1 ≤ 1) ∧
    (0 ≤ (SQLSemanticMatchMetric.measure (fun s => .ok s) ["SELECT 1"] "SELECT 1").1 ∧
      (SQLSemanticMatchMetric.measure (fun s => .ok s) ["SELECT 1"] "SELECT 1").1 ≤ 1) ∧
    (0 ≤ (ComponentMatchMetric.measure parseW ComponentMatchMetric.defaultWeights
        ["SELECT 1"] "SELECT 1").1 ∧
      (ComponentMatchMetric.measure parseW ComponentMatchMetric.defaultWeights
        ["SELECT 1"] "SELECT 1").1 ≤ 1) :=
  C9_scores_unit_interval {} bFail (fun s => .ok s) parseW
    ComponentMatchMetric.defaultWeights ["SELECT 1"] "SELECT 1"
    ComponentMatchMetric.defaultWeights_nonneg

end TsqlEval
